import Mathlib

/-!
Verification development for the search core of the firecrawl-customgoogle
repository.  The definitions below are shallow embeddings of the TypeScript
sources:

* `apps/api/src/search/google_custom_search.ts` (credential pool, rotation,
  retry loop of the primary provider),
* the provider-selection resolver (`search()`),
* `apps/api/src/controllers/v1/search.ts` (v1 search controller and
  `scrapeSearchResult`),
* the legacy v0 `searchHelper`/`searchController`.

External collaborators that are not part of the provided sources
(`waitForJob`, the v1 `Document` type, `toLegacyDocument`,
`BLOCKLISTED_URL_MESSAGE`) are modelled from the specification, as noted in
their doc comments.  Machine integers are modelled as `Nat`; JavaScript
`undefined`/missing object fields are modelled as `Option`.
-/

/-- JavaScript truthiness of a `string | undefined` environment variable:
`undefined` and the empty string are falsy, every other string is truthy. -/
def truthy : Option String → Bool
  | none => false
  | some s => s != ""

/-- Substring occurrence over character lists: the pattern is a prefix of
some suffix of the text. -/
def charsIncl (pat : List Char) : List Char → Bool
  | [] => pat.isEmpty
  | c :: t => pat.isPrefixOf (c :: t) || charsIncl pat t

/-- JavaScript `String.prototype.includes`: the pattern occurs somewhere in
`s`, written over the character lists so that concrete calls reduce in the
kernel. -/
def strIncludes (s pat : String) : Bool :=
  charsIncl pat.data s.data

/-- JavaScript `String.prototype.trim`: strip whitespace from both ends,
written over the character list so that concrete calls reduce in the
kernel. -/
def jsTrim (s : String) : String :=
  String.mk (((s.data.dropWhile Char.isWhitespace).reverse.dropWhile
    Char.isWhitespace).reverse)

/-- A normalized provider result (`SearchResult` in `lib/entities`):
URL, title, snippet/description. -/
structure SearchResult where
  url : String
  title : String
  description : String
deriving DecidableEq

/-- The environment variables read by the search core (`process.env`).
Each is `string | undefined`. -/
structure GoogleEnv where
  googleApiKey : Option String := none
  googleApiKey2 : Option String := none
  googleApiKey3 : Option String := none
  googleApiKey4 : Option String := none
  googleApiKey5 : Option String := none
  googleApiKey6 : Option String := none
  googleApiKey7 : Option String := none
  googleApiKey8 : Option String := none
  googleApiKey9 : Option String := none
  googleApiKey10 : Option String := none
  googleCseId : Option String := none
  serperApiKey : Option String := none
  searchapiApiKey : Option String := none
deriving DecidableEq

/-- `getAllApiKeys` from `google_custom_search.ts`: pushes each of
`GOOGLE_API_KEY`, `GOOGLE_API_KEY2`, …, `GOOGLE_API_KEY10` that is truthy,
then filters out keys that trim to the empty string. -/
def getAllApiKeys (env : GoogleEnv) : List String :=
  (([env.googleApiKey, env.googleApiKey2, env.googleApiKey3, env.googleApiKey4,
      env.googleApiKey5, env.googleApiKey6, env.googleApiKey7, env.googleApiKey8,
      env.googleApiKey9, env.googleApiKey10].filterMap
        (fun o => if truthy o then o else none)).filter
      (fun k => jsTrim k != ""))

/-- The four provider variants dispatched by `search()`. -/
inductive SearchProvider where
  | googleCSE
  | serper
  | searchapi
  | rawGoogle
deriving DecidableEq

/-- The provider-selection policy of `search()` (part_001, lines 44-91):
sequential environment-variable presence checks, first match wins. -/
def selectProvider (env : GoogleEnv) : SearchProvider :=
  if truthy env.googleApiKey && truthy env.googleCseId then .googleCSE
  else if truthy env.serperApiKey then .serper
  else if truthy env.searchapiApiKey then .searchapi
  else .rawGoogle

/-- Outcome of one upstream HTTP call made with a given credential:
either a list of items, or an axios error carrying
`error.response?.status` (`none` when there was no HTTP response)
and `error.message`. -/
inductive CallOutcome where
  | ok (results : List SearchResult)
  | err (status : Option Nat) (msg : String)
deriving DecidableEq

/-- Result of one logical `googleCustomSearch` call: normal results, an
immediately-thrown provider error, the all-keys-exhausted error (carrying the
last error status and message), or a configuration error thrown before the
loop starts. -/
inductive GCSResult where
  | ok (results : List SearchResult)
  | providerError (msg : String)
  | exhausted (status : Option Nat) (msg : String)
  | configError (msg : String)
deriving DecidableEq

/-- Trace of one `googleCustomSearch` call: its result together with the list
of pool indices whose credentials were tried, in order. -/
structure GCSRun where
  result : GCSResult
  tried : List Nat
deriving DecidableEq

/-- The retry predicate of `google_custom_search.ts` line 112:
`status === 400 || status === 403 || status === 429`
(an error without an HTTP response has no status and is not retryable). -/
def retryableStatus : Option Nat → Bool
  | some 400 => true
  | some 403 => true
  | some 429 => true
  | _ => false

/-- The key-rotation loop of `googleCustomSearch` (lines 64-128).  `K` is the
pool size; `idx` is the shared rotation index (`currentKeyIndex`), advanced by
`getNextApiKey` as `(idx + 1) % K`; `fuel` is the number of remaining loop
iterations (initially `K`: each key is tried at most once); `lastErr` is the
`lastError` variable; `behavior i` is the outcome of the upstream call made
with the credential selected at rotation index `i`.  Running out of fuel
throws the exhaustion error with the last error status and
`lastError?.message || "Unknown error"`. -/
def gcsLoop (behavior : Nat → CallOutcome) (K : Nat) :
    Nat → Nat → Option (Option Nat × String) → List Nat → GCSRun
  | 0, _, lastErr, tried =>
    match lastErr with
    | some (st, m) =>
      { result := .exhausted st (if m == "" then "Unknown error" else m), tried := tried }
    | none => { result := .exhausted none "Unknown error", tried := tried }
  | fuel + 1, idx, lastErr, tried =>
    match behavior idx with
    | .ok rs => { result := .ok rs, tried := tried ++ [idx] }
    | .err st m =>
      if retryableStatus st then
        gcsLoop behavior K fuel ((idx + 1) % K) (some (st, m)) (tried ++ [idx])
      else
        { result := .providerError ("Error calling Google Custom Search: " ++ m),
          tried := tried ++ [idx] }

/-- `googleCustomSearch` (lines 48-136): collects the key pool, throws when
`GOOGLE_CSE_ID` is falsy or the pool is empty, otherwise runs the rotation
loop over at most `keys.length` iterations starting at the shared rotation
index `startIdx`. -/
def googleCustomSearch (behavior : Nat → CallOutcome) (env : GoogleEnv)
    (startIdx : Nat) : GCSRun :=
  let keys := getAllApiKeys env
  if !truthy env.googleCseId then
    { result := .configError "Missing GOOGLE_CSE_ID environment variable.", tried := [] }
  else if keys.length = 0 then
    { result := .configError "No valid GOOGLE_API_KEY environment variables found.", tried := [] }
  else
    gcsLoop behavior keys.length keys.length startIdx none []

/-- The sequence of rotation indices selected by `fuel` consecutive
`getNextApiKey` calls starting at index `s`, for a pool of size `K`:
mirrors the loop transition `idx ↦ (idx + 1) % K`. -/
def selSeq (K : Nat) (s : Nat) : Nat → List Nat
  | 0 => []
  | n + 1 => s :: selSeq K ((s + 1) % K) n

/-- Closed form for the `j`-th selected index (the first selection is the raw
shared index, later ones are reduced modulo the pool size). -/
def selAt (K s : Nat) : Nat → Nat
  | 0 => s
  | j + 1 => (s + (j + 1)) % K

/-- The resolver `search()` (part_001, lines 19-97): dispatches to the
selected provider and, when the provider call fails, logs it and degrades to
the empty result list instead of propagating the exception.  `providerCall`
maps each provider variant to the outcome of its upstream call. -/
def searchResolve (env : GoogleEnv)
    (providerCall : SearchProvider → Except String (List SearchResult)) :
    List SearchResult :=
  match providerCall (selectProvider env) with
  | .ok rs => rs
  | .error _ => []

/-- Structured metadata of a v1 Document: HTTP-like status code and optional
error string, as built by `scrapeSearchResult`. -/
structure MetaV1 where
  statusCode : Nat
  error : Option String := none
deriving DecidableEq

/-- Modelled from the spec: the v1 `Document` type lives in
`controllers/v1/types`, which is not among the provided sources.  Per the
spec data model a Document carries URL, title, description, body/content
(the primary content field, `markdown`) and structured metadata with an
HTTP-like status code and optional error string; `serpResults` models the
truthiness of the `serpResults` flag consulted by the v1 controller filter.
`Option` fields model JavaScript properties that may be absent. -/
structure DocV1 where
  title : Option String := none
  description : Option String := none
  url : Option String := none
  markdown : Option String := none
  serpResults : Bool := false
  metadata : Option MetaV1 := none
deriving DecidableEq

/-- Modelled from the spec: `BLOCKLISTED_URL_MESSAGE` (`lib/strings`, not
among the provided sources) is the fixed rejection message attached to
blocklisted URLs. -/
def BLOCKLISTED_URL_MESSAGE : String :=
  "This website is no longer supported, please reach out to help@firecrawl.com for more info on how to activate it on your account."

/-- Outcome of awaiting one scrape job.  Modelled from the spec:
`waitForJob` (`services/queue-jobs`, not among the provided sources) resolves
with the scraped Document, or rejects — on deadline expiry with an error
whose message starts with `"Job wait"` (both controllers match exactly this
prefix in their catch blocks), on job failure with the job error message. -/
inductive JobOutcome where
  | completed (doc : DocV1)
  | timedOut
  | failed (msg : String)
deriving DecidableEq

/-- The rejection message `waitForJob` uses for a deadline expiry, or the
failure message; `none` when the job completed. -/
def jobErrMsg : JobOutcome → Option String
  | .completed _ => none
  | .timedOut => some "Job wait timed out"
  | .failed m => some m

/-- The JavaScript object merge of v1 `scrapeSearchResult` lines 68-73:
`{ title: sr.title, description: sr.description, url: sr.url, ...doc }`.
The spread comes last, so on a key collision the scraped document field
overrides the SERP field; the SERP value survives only when the scraped
document lacks the key. -/
def mergeSerp (sr : SearchResult) (d : DocV1) : DocV1 :=
  { d with
    title := some (d.title.getD sr.title),
    description := some (d.description.getD sr.description),
    url := some (d.url.getD sr.url) }

/-- The status-code computation of v1 `scrapeSearchResult` lines 82-85:
403 when the error message includes the fixed blocklist prefix, else 0. -/
def scrapeErrStatus (errorMessage : String) : Nat :=
  if strIncludes errorMessage "Could not scrape url" then 403 else 0

/-- The minimal error Document returned by the catch block of
`scrapeSearchResult` (lines 88-96). -/
def scrapeErrDoc (sr : SearchResult) (errorMessage : String) : DocV1 :=
  { title := some sr.title,
    description := some sr.description,
    url := some sr.url,
    metadata := some { statusCode := scrapeErrStatus errorMessage,
                       error := some errorMessage } }

/-- Trace of one v1 `scrapeSearchResult` call: the produced Document,
whether `addScrapeJob` admitted a task for the URL, and whether
`getScrapeQueue().remove(jobId)` was reached. -/
structure ScrapeTrace where
  doc : DocV1
  admitted : Bool
  removed : Bool
deriving DecidableEq

/-- v1 `scrapeSearchResult` (lines 27-98): blocklisted URLs throw before
admission and are caught into a 403 error Document; otherwise the job is
admitted, awaited, removed on success, and merged with the SERP fields; an
await rejection (timeout or failure) is caught into an error Document
without reaching the `remove` call. -/
def scrapeSearchResult (blocked : String → Bool) (outcome : JobOutcome)
    (sr : SearchResult) : ScrapeTrace :=
  if blocked sr.url then
    { doc := scrapeErrDoc sr ("Could not scrape url: " ++ BLOCKLISTED_URL_MESSAGE),
      admitted := false, removed := false }
  else
    match outcome with
    | .completed d => { doc := mergeSerp sr d, admitted := true, removed := true }
    | .timedOut =>
      { doc := scrapeErrDoc sr "Job wait timed out", admitted := true, removed := false }
    | .failed m => { doc := scrapeErrDoc sr m, admitted := true, removed := false }

/-- The over-fetch buffer of both controllers
(v1 `search.ts` line 115, v0 `searchHelper` line 61):
`Math.floor(limit * 1.5)`.  For a natural `limit` the product `limit * 1.5`
is exact in floating point, so the flooring is exactly `3 * limit / 2` in
natural division. -/
def numResultsBuffer (limit : Nat) : Nat :=
  3 * limit / 2

/-- Refinement comparison definition, following the spec words only
(§4.3 and §8): the spec states the over-fetch request size is
`ceil(requested_limit * 1.5)`, i.e. `⌈3L/2⌉ = (3L+1)/2` in natural
division. -/
def specCeilBuffer (limit : Nat) : Nat :=
  (3 * limit + 1) / 2

/-- The v1 SERP-only fast-path condition (`search.ts` lines 142-145):
`!req.body.scrapeOptions.formats || formats.length === 0`. -/
def fastPathV1 (formats : Option (List String)) : Bool :=
  match formats with
  | none => true
  | some fs => fs.isEmpty

/-- The v1 content filter predicate (`search.ts` lines 184-188):
`doc.serpResults || (doc.markdown && doc.markdown.trim().length > 0)`. -/
def keepDocV1 (d : DocV1) : Bool :=
  d.serpResults ||
    (match d.markdown with
     | some m => (jsTrim m).length != 0
     | none => false)

/-- A v1 `SearchResponse` value: HTTP status plus the JSON body fields. -/
structure V1Response where
  status : Nat
  success : Bool
  data : List DocV1 := []
  warning : Option String := none
  error : Option String := none
deriving DecidableEq

/-- Trace of one v1 `searchController` request: the response together with
the `num_results` count requested from the search provider. -/
structure V1Run where
  response : V1Response
  requestedNum : Nat
deriving DecidableEq

/-- The slicing of v1 `searchController` lines 117-131: ask the provider for
the buffered count, then slice down to the requested limit when the provider
returned more. -/
def slicedResultsV1 (limit : Nat) (providerSearch : Nat → List SearchResult) :
    List SearchResult :=
  let results0 := providerSearch (numResultsBuffer limit)
  if results0.length > limit then results0.take limit else results0

/-- The fan-out of v1 `searchController` lines 164-174: one
`scrapeSearchResult` per sliced result, outcomes indexed by position. -/
def docsV1 (blocked : String → Bool) (outcomes : Nat → JobOutcome)
    (searchResults : List SearchResult) : List DocV1 :=
  searchResults.enum.map (fun p => (scrapeSearchResult blocked (outcomes p.1) p.2).doc)

/-- v1 `searchController` (`search.ts` lines 103-237), from the point where
the request body has been parsed.  `providerSearch n` is the result list the
resolver returns when asked for `n` results; `outcomes i` is the awaited
outcome of the scrape job admitted for the `i`-th sliced search result.
Since `scrapeSearchResult` catches every per-task error, the scrape path
never throws and the catch block (lines 217-236) is unreachable from scrape
outcomes. -/
def searchControllerV1 (blocked : String → Bool) (outcomes : Nat → JobOutcome)
    (limit : Nat) (providerSearch : Nat → List SearchResult)
    (formats : Option (List String)) : V1Run :=
  let searchResults := slicedResultsV1 limit providerSearch
  if searchResults.length = 0 then
    { response := { status := 200, success := true, data := [],
                    warning := some "No search results found" },
      requestedNum := numResultsBuffer limit }
  else if fastPathV1 formats then
    { response := { status := 200, success := true,
                    data := searchResults.map (fun r =>
                      { url := some r.url, title := some r.title,
                        description := some r.description }) },
      requestedNum := numResultsBuffer limit }
  else
    let docs := docsV1 blocked outcomes searchResults
    let filteredDocs := docs.filter keepDocV1
    if filteredDocs.length = 0 then
      { response := { status := 200, success := true, data := docs,
                      warning := some "No content found in search results" },
        requestedNum := numResultsBuffer limit }
    else
      { response := { status := 200, success := true, data := filteredDocs },
        requestedNum := numResultsBuffer limit }

/-- Modelled from the spec: the legacy document shape produced by
`toLegacyDocument` (`v1/types`, not among the provided sources); its primary
content field is `content`, filtered on by `searchHelper` line 145. -/
structure LegacyDoc where
  content : String
  url : Option String := none
deriving DecidableEq

/-- Modelled from the spec: `toLegacyDocument` converts a v1 Document to the
legacy shape, filling the primary content field from the v1 content body. -/
def toLegacyDocument (d : DocV1) : LegacyDoc :=
  { content := d.markdown.getD "", url := d.url }

/-- The data payload of a v0 response: raw SERP results on the
`justSearch` path, legacy documents on the scrape path. -/
inductive V0Data where
  | serp (rs : List SearchResult)
  | docs (ds : List LegacyDoc)
deriving DecidableEq

/-- Number of items in a v0 data payload. -/
def V0Data.size : V0Data → Nat
  | .serp rs => rs.length
  | .docs ds => ds.length

/-- The result shape of v0 `searchHelper`:
`{ success, error?, data?, returnCode }`. -/
structure V0HelperResp where
  success : Bool
  error : Option String := none
  data : Option V0Data := none
  returnCode : Nat
deriving DecidableEq

/-- Decidable equality for `Except`, needed to evaluate concrete v0 runs. -/
instance exceptDecEq {ε α : Type} [DecidableEq ε] [DecidableEq α] :
    DecidableEq (Except ε α) := fun x y =>
  match x, y with
  | .ok a, .ok b =>
    match decEq a b with
    | .isTrue h => .isTrue (h ▸ rfl)
    | .isFalse h => .isFalse (by intro hh; cases hh; exact h rfl)
  | .error a, .error b =>
    match decEq a b with
    | .isTrue h => .isTrue (h ▸ rfl)
    | .isFalse h => .isFalse (by intro hh; cases hh; exact h rfl)
  | .ok _, .error _ => .isFalse (fun hh => Except.noConfusion hh)
  | .error _, .ok _ => .isFalse (fun hh => Except.noConfusion hh)

/-- Trace of one v0 `searchHelper` call: its result (`Except.error` when an
awaited job rejection propagates out of the un-caught `Promise.all`), the
URLs admitted to the queue, and how many queue entries were removed. -/
structure V0Run where
  result : Except String V0HelperResp
  admittedUrls : List String
  removedCount : Nat
deriving DecidableEq

/-- The effective v0 result limit (`searchHelper` lines 53-58):
`min(limit ?? 7, 10)`, overridden to 1 for one hard-coded team. -/
def v0NumResults (teamId : String) (limitOpt : Option Nat) : Nat :=
  if teamId == "d97c4ceb-290b-4957-8432-2b2a02727d95" then 1
  else min (limitOpt.getD 7) 10

/-- The first rejection among the awaited job outcomes of a batch of size
`n`, if any: `Promise.all` rejects with the first rejected promise, modelled
as the lowest index whose outcome is a rejection. -/
def firstErr (outcomes : Nat → JobOutcome) (n : Nat) : Option String :=
  (List.range n).findSome? (fun i => jobErrMsg (outcomes i))

/-- The document of a completed outcome (only consulted on the v0 path after
`firstErr` found no rejection, so the fallback is unreachable there). -/
def completedDoc : JobOutcome → DocV1
  | .completed d => d
  | _ => {}

/-- The v0 content filter predicate (`searchHelper` lines 144-146):
`doc && doc.content && doc.content.trim().length > 0`. -/
def keepDocV0 (d : LegacyDoc) : Bool :=
  d.content != "" && (jsTrim d.content).length != 0

/-- The post-fast-path filtering and slicing of v0 `searchHelper` lines
93-97: drop blocked URLs, then slice to the effective limit when more
remain. -/
def v0Res (blocked : String → Bool) (teamId : String) (limitOpt : Option Nat)
    (providerSearch : Nat → List SearchResult) : List SearchResult :=
  let num_results := v0NumResults teamId limitOpt
  let res1 := (providerSearch (numResultsBuffer num_results)).filter
    (fun r => !blocked r.url)
  if res1.length > num_results then res1.take num_results else res1

/-- The fan-in of v0 `searchHelper` lines 129-134: one awaited outcome per
admitted job, converted to the legacy document shape.  Only consulted when
no awaited job rejected. -/
def v0DocsLegacy (outcomes : Nat → JobOutcome) (res : List SearchResult) :
    List LegacyDoc :=
  res.enum.map (fun p => toLegacyDocument (completedDoc (outcomes p.1)))

/-- v0 `searchHelper` (part_000, lines 30-162).  `providerSearch n` is the
resolver result when asked for `n` results; `outcomes i` the awaited outcome
of the `i`-th admitted job.  Blocked URLs are filtered out (producing no
document) and the slice to the effective limit happens only after the
`justSearch` early return; the batch `Promise.all` of `waitForJob` calls has
no catch, so any rejection propagates out before any `remove` is issued. -/
def searchHelperV0 (blocked : String → Bool) (outcomes : Nat → JobOutcome)
    (query : String) (teamId : String) (limitOpt : Option Nat)
    (fetchPageContent : Bool) (providerSearch : Nat → List SearchResult) : V0Run :=
  if query == "" then
    { result := .ok { success := false, error := some "Query is required", returnCode := 400 },
      admittedUrls := [], removedCount := 0 }
  else if fetchPageContent == false then
    { result := .ok { success := true,
                      data := some (.serp (providerSearch
                        (numResultsBuffer (v0NumResults teamId limitOpt)))),
                      returnCode := 200 },
      admittedUrls := [], removedCount := 0 }
  else
    let res := v0Res blocked teamId limitOpt providerSearch
    if res.length = 0 then
      { result := .ok { success := true, error := some "No search results found",
                        returnCode := 200 },
        admittedUrls := [], removedCount := 0 }
    else
      let admitted := res.map (fun r => r.url)
      match firstErr outcomes res.length with
      | some m => { result := .error m, admittedUrls := admitted, removedCount := 0 }
      | none =>
        let docs := v0DocsLegacy outcomes res
        if docs.length = 0 then
          { result := .ok { success := true, error := some "No search results found",
                            returnCode := 200 },
            admittedUrls := admitted, removedCount := 0 }
        else
          let filteredDocs := docs.filter keepDocV0
          if filteredDocs.length = 0 then
            { result := .ok { success := true, error := some "No page found",
                              returnCode := 200, data := some (.docs docs) },
              admittedUrls := admitted, removedCount := res.length }
          else
            { result := .ok { success := true, data := some (.docs filteredDocs),
                              returnCode := 200 },
              admittedUrls := admitted, removedCount := res.length }

/-- JavaScript `String.prototype.startsWith`, over the character lists so
that concrete calls reduce in the kernel. -/
def jsStartsWith (s pre : String) : Bool :=
  pre.data.isPrefixOf s.data

/-- A v0 controller response: HTTP status and body fields.  The helper result
is serialized as-is on the normal path; the catch paths emit a bare
`{ error }` object without a success flag. -/
structure V0CtrlResponse where
  status : Nat
  success : Option Bool := none
  error : Option String := none
  data : Option V0Data := none
deriving DecidableEq

/-- v0 `searchController` (part_000, lines 167-253), after authentication and
the credit check: runs `searchHelper` and serializes its result, catching a
propagated rejection — a message starting with `"Job wait"` (or equal to
`"timeout"`) becomes a 408 failure, anything else a 500 failure. -/
def searchControllerV0 (blocked : String → Bool) (outcomes : Nat → JobOutcome)
    (query : String) (teamId : String) (limitOpt : Option Nat)
    (fetchPageContent : Bool) (providerSearch : Nat → List SearchResult) : V0CtrlResponse :=
  match (searchHelperV0 blocked outcomes query teamId limitOpt fetchPageContent
      providerSearch).result with
  | .ok r =>
    { status := r.returnCode, success := some r.success, error := r.error, data := r.data }
  | .error m =>
    if jsStartsWith m "Job wait" || m == "timeout" then
      { status := 408, error := some "Request timed out" }
    else
      { status := 500, error := some m }

theorem selSeq_length (K : Nat) : ∀ n s, (selSeq K s n).length = n := by
  intro n
  induction n with
  | zero => intro s; rfl
  | succ n ih => intro s; simp [selSeq, ih]

theorem selAt_shift (K s : Nat) : ∀ j, selAt K ((s + 1) % K) j = (s + (j + 1)) % K := by
  intro j
  cases j with
  | zero => simp [selAt]
  | succ j =>
    show ((s + 1) % K + (j + 1)) % K = (s + (j + 1 + 1)) % K
    rw [Nat.mod_add_mod]
    congr 1
    omega

theorem mem_selSeq (K : Nat) :
    ∀ n s x, x ∈ selSeq K s n → ∃ j, j < n ∧ x = selAt K s j := by
  intro n
  induction n with
  | zero => intro s x hx; simp [selSeq] at hx
  | succ n ih =>
    intro s x hx
    simp only [selSeq, List.mem_cons] at hx
    rcases hx with rfl | hx
    · exact ⟨0, Nat.succ_pos n, rfl⟩
    · obtain ⟨j, hj, hx⟩ := ih ((s + 1) % K) x hx
      refine ⟨j + 1, by omega, ?_⟩
      rw [hx, selAt_shift]
      rfl

theorem sel_ne (K s j : Nat) (h1 : 1 ≤ j) (h2 : j < K) : s ≠ (s + j) % K := by
  intro h
  by_cases hs : s < K
  · have hmod : s % K = (s + j) % K := by
      rw [Nat.mod_eq_of_lt hs]; exact h
    have hdvd : K ∣ (s + j) - s := (Nat.modEq_iff_dvd' (Nat.le_add_right s j)).mp hmod
    have : K ∣ j := by simpa using hdvd
    have := Nat.le_of_dvd (by omega) this
    omega
  · have : (s + j) % K < K := Nat.mod_lt _ (by omega)
    omega

theorem selSeq_pairwise (K : Nat) :
    ∀ n s, n ≤ K → (selSeq K s n).Pairwise (· ≠ ·) := by
  intro n
  induction n with
  | zero => intro s _; simp [selSeq]
  | succ n ih =>
    intro s hn
    simp only [selSeq, List.pairwise_cons]
    constructor
    · intro x hx
      obtain ⟨j, hj, rfl⟩ := mem_selSeq K n ((s + 1) % K) x hx
      rw [selAt_shift]
      exact sel_ne K s (j + 1) (by omega) (by omega)
    · exact ih ((s + 1) % K) (by omega)

theorem gcsLoop_tried (behavior : Nat → CallOutcome) (K : Nat) :
    ∀ fuel idx lastErr acc, ∃ n, n ≤ fuel ∧
      (gcsLoop behavior K fuel idx lastErr acc).tried = acc ++ selSeq K idx n := by
  intro fuel
  induction fuel with
  | zero =>
    intro idx lastErr acc
    refine ⟨0, Nat.le_refl 0, ?_⟩
    cases lastErr with
    | none => simp [gcsLoop, selSeq]
    | some p => cases p with | mk st m => simp [gcsLoop, selSeq]
  | succ fuel ih =>
    intro idx lastErr acc
    cases hb : behavior idx with
    | ok rs =>
      refine ⟨1, by omega, ?_⟩
      simp [gcsLoop, hb, selSeq]
    | err st m =>
      by_cases hr : retryableStatus st = true
      · obtain ⟨n, hn, htr⟩ := ih ((idx + 1) % K) (some (st, m)) (acc ++ [idx])
        refine ⟨n + 1, by omega, ?_⟩
        simp only [gcsLoop, hb, hr, if_true]
        rw [htr]
        simp [selSeq]
      · refine ⟨1, by omega, ?_⟩
        simp only [Bool.not_eq_true] at hr
        simp [gcsLoop, hb, hr, selSeq]

theorem gcsLoop_exhaust (behavior : Nat → CallOutcome) (K : Nat) :
    ∀ fuel idx lastErr acc, 0 < fuel → idx < K →
      (∀ j, j < fuel → ∃ st m, behavior ((idx + j) % K) = .err st m ∧
        retryableStatus st = true) →
      ∃ st m, behavior ((idx + (fuel - 1)) % K) = .err st m ∧
        (gcsLoop behavior K fuel idx lastErr acc).result =
          .exhausted st (if m == "" then "Unknown error" else m) ∧
        (gcsLoop behavior K fuel idx lastErr acc).tried = acc ++ selSeq K idx fuel := by
  intro fuel
  induction fuel with
  | zero => intro idx lastErr acc h; omega
  | succ fuel ih =>
    intro idx lastErr acc _ hidx hall
    obtain ⟨st0, m0, hb0, hr0⟩ := hall 0 (Nat.succ_pos fuel)
    rw [Nat.add_zero, Nat.mod_eq_of_lt hidx] at hb0
    cases fuel with
    | zero =>
      refine ⟨st0, m0, ?_, ?_, ?_⟩
      · simpa [Nat.mod_eq_of_lt hidx] using hb0
      · simp [gcsLoop, hb0, hr0]
      · simp [gcsLoop, hb0, hr0, selSeq]
    | succ fuel =>
      have hidx1 : (idx + 1) % K < K := Nat.mod_lt _ (by omega)
      have hall1 : ∀ j, j < fuel + 1 →
          ∃ st m, behavior (((idx + 1) % K + j) % K) = .err st m ∧
            retryableStatus st = true := by
        intro j hj
        obtain ⟨st, m, hb, hr⟩ := hall (j + 1) (by omega)
        refine ⟨st, m, ?_, hr⟩
        rw [Nat.mod_add_mod]
        have : idx + 1 + j = idx + (j + 1) := by omega
        rw [this]
        exact hb
      obtain ⟨st, m, hb, hres, htr⟩ :=
        ih ((idx + 1) % K) (some (st0, m0)) (acc ++ [idx]) (Nat.succ_pos fuel) hidx1 hall1
      have hstep : gcsLoop behavior K (fuel + 1 + 1) idx lastErr acc =
          gcsLoop behavior K (fuel + 1) ((idx + 1) % K) (some (st0, m0)) (acc ++ [idx]) := by
        conv_lhs => rw [gcsLoop]
        simp only [hb0, hr0, if_true]
      refine ⟨st, m, ?_, ?_, ?_⟩
      · rw [Nat.mod_add_mod] at hb
        have : idx + 1 + (fuel + 1 - 1) = idx + (fuel + 1 + 1 - 1) := by omega
        rw [this] at hb
        exact hb
      · rw [hstep]
        exact hres
      · rw [hstep, htr]
        simp [selSeq]

theorem slicedResultsV1_length_le (limit : Nat) (ps : Nat → List SearchResult) :
    (slicedResultsV1 limit ps).length ≤ limit := by
  simp only [slicedResultsV1]
  split
  · simp only [List.length_take]
    omega
  · omega

theorem docsV1_length (blocked : String → Bool) (outcomes : Nat → JobOutcome)
    (rs : List SearchResult) : (docsV1 blocked outcomes rs).length = rs.length := by
  simp [docsV1]

theorem v0Res_length_le (blocked : String → Bool) (teamId : String)
    (limitOpt : Option Nat) (ps : Nat → List SearchResult) :
    (v0Res blocked teamId limitOpt ps).length ≤ v0NumResults teamId limitOpt := by
  simp only [v0Res]
  split
  · simp only [List.length_take]
    omega
  · omega

theorem v0Res_not_blocked (blocked : String → Bool) (teamId : String)
    (limitOpt : Option Nat) (ps : Nat → List SearchResult) :
    ∀ r ∈ v0Res blocked teamId limitOpt ps, blocked r.url = false := by
  intro r hr
  simp only [v0Res] at hr
  have hr1 : r ∈ (ps (numResultsBuffer (v0NumResults teamId limitOpt))).filter
      (fun r => !blocked r.url) := by
    split at hr
    · exact List.take_subset _ _ hr
    · exact hr
  have := (List.mem_filter.mp hr1).2
  simpa using this

theorem v0DocsLegacy_length (outcomes : Nat → JobOutcome) (res : List SearchResult) :
    (v0DocsLegacy outcomes res).length = res.length := by
  simp [v0DocsLegacy]

theorem searchHelperV0_ok_or_noremove (blocked : String → Bool)
    (outcomes : Nat → JobOutcome) (query teamId : String) (limitOpt : Option Nat)
    (fpc : Bool) (ps : Nat → List SearchResult) :
    (∃ r, (searchHelperV0 blocked outcomes query teamId limitOpt fpc ps).result =
      Except.ok r) ∨
    (searchHelperV0 blocked outcomes query teamId limitOpt fpc ps).removedCount = 0 := by
  simp only [searchHelperV0]
  split
  · exact .inl ⟨_, rfl⟩
  · split
    · exact .inl ⟨_, rfl⟩
    · split
      · exact .inl ⟨_, rfl⟩
      · split
        · exact .inr rfl
        · split
          · exact .inl ⟨_, rfl⟩
          · split
            · exact .inl ⟨_, rfl⟩
            · exact .inl ⟨_, rfl⟩

/-- C2 (amended): in the v1 controller the number of results requested from
the provider is exactly `floor(limit * 1.5)`; this coincides with the
spec-stated `ceil(limit * 1.5)` exactly when the requested limit is even. -/
theorem c2_buffer_is_floor (blocked : String → Bool) (outcomes : Nat → JobOutcome)
    (limit : Nat) (ps : Nat → List SearchResult) (formats : Option (List String)) :
    (searchControllerV1 blocked outcomes limit ps formats).requestedNum =
      numResultsBuffer limit ∧
    (numResultsBuffer limit = specCeilBuffer limit ↔ limit % 2 = 0) := by
  constructor
  · simp only [searchControllerV1]
    split
    · rfl
    · split
      · rfl
      · split
        · rfl
        · rfl
  · simp only [numResultsBuffer, specCeilBuffer]
    omega

/-- C2 counterexample: for requested limit 3 the controller requests
`floor(3 * 1.5) = 4` results from the provider, not `ceil(3 * 1.5) = 5` as
the claim states. -/
theorem c2_counterexample :
    (searchControllerV1 (fun _ => false) (fun _ => JobOutcome.timedOut) 3
      (fun _ => []) none).requestedNum = 4 ∧
    specCeilBuffer 3 = 5 ∧
    (searchControllerV1 (fun _ => false) (fun _ => JobOutcome.timedOut) 3
      (fun _ => []) none).requestedNum ≠ specCeilBuffer 3 := by
  refine ⟨rfl, rfl, ?_⟩
  intro h
  exact absurd h (by decide)

/-- C7: one logical `googleCustomSearch` call tries at most as many
credentials as the pool holds, and the rotation indices it selects are
pairwise distinct — no credential is selected twice within one call, for
every starting value of the shared rotation index. -/
theorem c7_rotation_distinct (behavior : Nat → CallOutcome) (env : GoogleEnv)
    (startIdx : Nat) :
    (googleCustomSearch behavior env startIdx).tried.length ≤
      (getAllApiKeys env).length ∧
    (googleCustomSearch behavior env startIdx).tried.Pairwise (· ≠ ·) := by
  simp only [googleCustomSearch]
  split
  · simp
  · split
    · simp
    · obtain ⟨n, hn, htr⟩ := gcsLoop_tried behavior (getAllApiKeys env).length
        (getAllApiKeys env).length startIdx none []
      rw [htr]
      simp only [List.nil_append]
      refine ⟨?_, selSeq_pairwise _ n startIdx hn⟩
      rw [selSeq_length]
      exact hn

/-- C9: any provider-level failure raised inside the resolver `search()` is
caught and degraded to the empty result list instead of propagating. -/
theorem c9_resolver_fails_open (env : GoogleEnv)
    (providerCall : SearchProvider → Except String (List SearchResult))
    (m : String) (h : providerCall (selectProvider env) = Except.error m) :
    searchResolve env providerCall = [] := by
  simp only [searchResolve, h]

/-- C9 witness: a concrete exhausted-providers failure degrades to `[]`. -/
theorem c9_witness :
    searchResolve {} (fun _ => Except.error "ProvidersExhausted") = [] :=
  c9_resolver_fails_open {} (fun _ => Except.error "ProvidersExhausted")
    "ProvidersExhausted" rfl

/-- C10: the primary key-rotatable provider is selected iff both the
unnumbered `GOOGLE_API_KEY` and `GOOGLE_CSE_ID` are truthy; in particular a
non-empty credential pool populated only through `GOOGLE_API_KEY2`-`10`
never selects the primary provider. -/
theorem c10_primary_selection :
    (∀ env : GoogleEnv, selectProvider env = .googleCSE ↔
      (truthy env.googleApiKey = true ∧ truthy env.googleCseId = true)) ∧
    (∀ env : GoogleEnv, truthy env.googleApiKey = false →
      getAllApiKeys env ≠ [] → selectProvider env ≠ .googleCSE) := by
  constructor
  · intro env
    cases hA : truthy env.googleApiKey <;> cases hC : truthy env.googleCseId <;>
      simp [selectProvider, hA, hC] <;> split <;> simp_all <;> split <;> simp_all
  · intro env hA _ h
    simp only [selectProvider, hA, Bool.false_and, Bool.false_eq_true, if_false] at h
    split at h <;> simp_all <;> split at h <;> simp_all

/-- C10 witness: only `GOOGLE_API_KEY2` and `GOOGLE_CSE_ID` configured — the
pool is non-empty, yet the primary provider is not selected. -/
theorem c10_witness :
    selectProvider { googleApiKey2 := some "k2", googleCseId := some "cse" } ≠
      SearchProvider.googleCSE :=
  c10_primary_selection.2 { googleApiKey2 := some "k2", googleCseId := some "cse" }
    rfl (by simp only [getAllApiKeys, truthy]; decide)

/-- C4 (amended): in the merge of v1 `scrapeSearchResult`, the spread of the
scraped document comes last, so scrape-derived title and description take
precedence; the SERP values survive only when the scraped document lacks the
field.  The content body always comes from the scraped document. -/
theorem c4_scrape_overrides_serp (blocked : String → Bool) (sr : SearchResult)
    (d : DocV1) (hb : blocked sr.url = false) :
    (scrapeSearchResult blocked (.completed d) sr).doc.markdown = d.markdown ∧
    (∀ t, d.title = some t →
      (scrapeSearchResult blocked (.completed d) sr).doc.title = some t) ∧
    (d.title = none →
      (scrapeSearchResult blocked (.completed d) sr).doc.title = some sr.title) ∧
    (∀ t, d.description = some t →
      (scrapeSearchResult blocked (.completed d) sr).doc.description = some t) ∧
    (d.description = none →
      (scrapeSearchResult blocked (.completed d) sr).doc.description =
        some sr.description) := by
  simp only [scrapeSearchResult, hb, Bool.false_eq_true, if_false]
  refine ⟨rfl, ?_, ?_, ?_, ?_⟩
  · intro t ht
    simp [mergeSerp, ht]
  · intro ht
    simp [mergeSerp, ht]
  · intro t ht
    simp [mergeSerp, ht]
  · intro ht
    simp [mergeSerp, ht]

/-- C4 witness: a concrete scraped title overrides the SERP title, and a
missing scraped title falls back to the SERP title. -/
theorem c4_witness :
    (scrapeSearchResult (fun _ => false)
      (.completed { title := some "scraped title", markdown := some "body" })
      ⟨"https://w4.example", "serp title", "serp desc"⟩).doc.title =
      some "scraped title" ∧
    (scrapeSearchResult (fun _ => false) (.completed { markdown := some "body" })
      ⟨"https://w4.example", "serp title", "serp desc"⟩).doc.title =
      some "serp title" :=
  ⟨(c4_scrape_overrides_serp (fun _ => false)
      ⟨"https://w4.example", "serp title", "serp desc"⟩
      { title := some "scraped title", markdown := some "body" } rfl).2.1
      "scraped title" rfl,
   (c4_scrape_overrides_serp (fun _ => false)
      ⟨"https://w4.example", "serp title", "serp desc"⟩
      { markdown := some "body" } rfl).2.2.1 rfl⟩

/-- C4 counterexample: the claim says the SERP title takes precedence, but
for a scrape outcome carrying its own title the merged Document keeps the
scrape-derived title, not the SERP one. -/
theorem c4_counterexample :
    (scrapeSearchResult (fun _ => false)
      (.completed { title := some "scraped override", markdown := some "body" })
      ⟨"https://c4.example", "serp original", "serp desc"⟩).doc.title =
      some "scraped override" ∧
    (some "scraped override" : Option String) ≠ some "serp original" := by
  refine ⟨rfl, ?_⟩
  decide

/-- C5 (amended): a blocklisted URL never produces an admitted ScrapeTask on
either path; the v1 path resolves it to a rejection Document carrying the
fixed rejection message and a 403 status, while the v0 path silently filters
it out before admission (producing no Document for it). -/
theorem c5_blocklist (blocked : String → Bool) :
    (∀ (outcome : JobOutcome) (sr : SearchResult), blocked sr.url = true →
      (scrapeSearchResult blocked outcome sr).admitted = false ∧
      (scrapeSearchResult blocked outcome sr).doc.metadata =
        some { statusCode := 403,
               error := some ("Could not scrape url: " ++ BLOCKLISTED_URL_MESSAGE) }) ∧
    (∀ (outcomes : Nat → JobOutcome) (query teamId : String) (limitOpt : Option Nat)
        (fpc : Bool) (ps : Nat → List SearchResult) (url : String),
      blocked url = true →
      url ∉ (searchHelperV0 blocked outcomes query teamId limitOpt fpc
        ps).admittedUrls) := by
  constructor
  · intro outcome sr hb
    refine ⟨?_, ?_⟩
    · simp [scrapeSearchResult, hb]
    · simp only [scrapeSearchResult, hb, if_true, scrapeErrDoc]
      have h403 : scrapeErrStatus
          ("Could not scrape url: " ++ BLOCKLISTED_URL_MESSAGE) = 403 := by decide
      rw [h403]
  · intro outcomes query teamId limitOpt fpc ps url hb hmem
    simp only [searchHelperV0] at hmem
    split at hmem
    · simp at hmem
    · split at hmem
      · simp at hmem
      · split at hmem
        · simp at hmem
        · have hok : ∀ x ∈ (v0Res blocked teamId limitOpt ps).map (fun r => r.url),
              blocked x = false := by
            intro x hx
            obtain ⟨r, hr, rfl⟩ := List.mem_map.mp hx
            exact v0Res_not_blocked blocked teamId limitOpt ps r hr
          split at hmem
          · exact absurd (hok url hmem) (by simp [hb])
          · split at hmem
            · exact absurd (hok url hmem) (by simp [hb])
            · split at hmem
              · exact absurd (hok url hmem) (by simp [hb])
              · exact absurd (hok url hmem) (by simp [hb])

/-- C5 witness: a concrete blocklisted URL is not admitted and yields the
fixed 403 rejection Document on the v1 path. -/
theorem c5_witness :
    (scrapeSearchResult (fun u => u == "https://w5.example") JobOutcome.timedOut
      ⟨"https://w5.example", "B", "db"⟩).admitted = false ∧
    (scrapeSearchResult (fun u => u == "https://w5.example") JobOutcome.timedOut
      ⟨"https://w5.example", "B", "db"⟩).doc.metadata =
      some { statusCode := 403,
             error := some ("Could not scrape url: " ++ BLOCKLISTED_URL_MESSAGE) } :=
  (c5_blocklist (fun u => u == "https://w5.example")).1 JobOutcome.timedOut
    ⟨"https://w5.example", "B", "db"⟩ (by decide)

/-- C5 counterexample: on the v0 path a blocklisted URL is dropped by the
filter and the pipeline produces no Document at all for it (`data = none`),
contradicting the claim that it always yields a rejection Document. -/
theorem c5_counterexample :
    searchHelperV0 (fun u => u == "https://c5.example") (fun _ => JobOutcome.timedOut)
      "q" "t" (some 5) true (fun _ => [⟨"https://c5.example", "B", "db"⟩]) =
    { result := .ok { success := true, error := some "No search results found",
                      returnCode := 200 },
      admittedUrls := [], removedCount := 0 } := by
  decide

/-- C6 (amended): the queue entry of an admitted task is removed iff the
await completed successfully — per task in v1 (a timeout or failure skips
the `remove` call), and batch-wide in v0 (any rejection aborts the helper
before any `remove` is issued). -/
theorem c6_release_only_on_success :
    (∀ (blocked : String → Bool) (outcome : JobOutcome) (sr : SearchResult),
      (scrapeSearchResult blocked outcome sr).removed = true ↔
        (blocked sr.url = false ∧ ∃ d, outcome = .completed d)) ∧
    (∀ (blocked : String → Bool) (outcomes : Nat → JobOutcome)
        (query teamId : String) (limitOpt : Option Nat) (fpc : Bool)
        (ps : Nat → List SearchResult) (m : String),
      (searchHelperV0 blocked outcomes query teamId limitOpt fpc ps).result =
        Except.error m →
      (searchHelperV0 blocked outcomes query teamId limitOpt fpc ps).removedCount =
        0) := by
  constructor
  · intro blocked outcome sr
    cases hb : blocked sr.url <;> cases outcome <;> simp [scrapeSearchResult, hb]
  · intro blocked outcomes query teamId limitOpt fpc ps m h
    rcases searchHelperV0_ok_or_noremove blocked outcomes query teamId limitOpt fpc ps
      with ⟨r, hr⟩ | h0
    · rw [h] at hr
      cases hr
    · exact h0

/-- C6 witness: a concrete batch whose single awaited job times out leaves
the v0 helper with zero removed queue entries. -/
theorem c6_witness :
    (searchHelperV0 (fun _ => false) (fun _ => JobOutcome.timedOut) "q" "t" (some 2)
      true (fun _ => [⟨"https://w6.example", "A", "da"⟩])).removedCount = 0 :=
  c6_release_only_on_success.2 (fun _ => false) (fun _ => JobOutcome.timedOut)
    "q" "t" (some 2) true (fun _ => [⟨"https://w6.example", "A", "da"⟩])
    "Job wait timed out" (by decide)

/-- C6 counterexample: a task admitted and then timed out is never released —
the v1 catch path skips the `remove` call, contradicting the claim that a
release is issued regardless of outcome. -/
theorem c6_counterexample :
    (scrapeSearchResult (fun _ => false) JobOutcome.timedOut
      ⟨"https://c6.example", "C", "dc"⟩).admitted = true ∧
    (scrapeSearchResult (fun _ => false) JobOutcome.timedOut
      ⟨"https://c6.example", "C", "dc"⟩).removed = false := by
  exact ⟨rfl, rfl⟩

/-- C1 (amended, v1 part): in the v1 controller every per-task timeout is
recovered by `scrapeSearchResult` as a degraded Document; when every task in
the batch times out the controller still returns success=true with HTTP 200
and a non-empty warning, never a failure response.  (In the legacy v0 path a
timeout instead propagates to a 408 failure; see the counterexample.) -/
theorem c1_v1_all_timeouts_still_success (blocked : String → Bool)
    (outcomes : Nat → JobOutcome) (limit : Nat)
    (ps : Nat → List SearchResult) (formats : Option (List String))
    (hfp : fastPathV1 formats = false) (hlim : 0 < limit)
    (hne : ps (numResultsBuffer limit) ≠ [])
    (hto : ∀ i, outcomes i = JobOutcome.timedOut) :
    (searchControllerV1 blocked outcomes limit ps formats).response.success = true ∧
    (searchControllerV1 blocked outcomes limit ps formats).response.status = 200 ∧
    (searchControllerV1 blocked outcomes limit ps formats).response.warning =
      some "No content found in search results" ∧
    "No content found in search results" ≠ "" := by
  have hsl : (slicedResultsV1 limit ps).length ≠ 0 := by
    simp only [slicedResultsV1]
    split
    · simp only [List.length_take]
      omega
    · simp only [ne_eq, List.length_eq_zero]
      exact hne
  have hdoc : ∀ d ∈ docsV1 blocked outcomes (slicedResultsV1 limit ps),
      ¬ keepDocV1 d = true := by
    intro d hd
    simp only [docsV1, List.mem_map] at hd
    obtain ⟨p, _, rfl⟩ := hd
    rw [hto p.1]
    simp only [scrapeSearchResult]
    split
    · simp [keepDocV1, scrapeErrDoc]
    · simp [keepDocV1, scrapeErrDoc]
  have hfilter : (docsV1 blocked outcomes (slicedResultsV1 limit ps)).filter
      keepDocV1 = [] := List.filter_eq_nil_iff.mpr hdoc
  simp only [searchControllerV1, hsl, if_false, hfp, Bool.false_eq_true, hfilter,
    List.length_nil, if_true]
  exact ⟨trivial, trivial, trivial, by decide⟩

/-- C1 witness: a concrete one-task batch whose task times out yields a
success=true response with the non-empty warning. -/
theorem c1_witness :
    (searchControllerV1 (fun _ => false) (fun _ => JobOutcome.timedOut) 2
      (fun _ => [⟨"https://w1.example", "A", "da"⟩])
      (some ["markdown"])).response.success = true ∧
    (searchControllerV1 (fun _ => false) (fun _ => JobOutcome.timedOut) 2
      (fun _ => [⟨"https://w1.example", "A", "da"⟩])
      (some ["markdown"])).response.status = 200 ∧
    (searchControllerV1 (fun _ => false) (fun _ => JobOutcome.timedOut) 2
      (fun _ => [⟨"https://w1.example", "A", "da"⟩])
      (some ["markdown"])).response.warning =
      some "No content found in search results" ∧
    "No content found in search results" ≠ "" :=
  c1_v1_all_timeouts_still_success (fun _ => false) (fun _ => JobOutcome.timedOut) 2
    (fun _ => [⟨"https://w1.example", "A", "da"⟩]) (some ["markdown"])
    rfl (by decide) (by decide) (fun _ => rfl)

/-- C1 counterexample: in the legacy v0 path a batch whose every admitted
task times out makes the controller return a 408 failure response carrying no
success=true flag — the per-task timeout escalates to a request-level
failure, contradicting the claim. -/
theorem c1_counterexample :
    searchControllerV0 (fun _ => false) (fun _ => JobOutcome.timedOut) "q" "t"
      (some 2) true (fun _ => [⟨"https://c1.example", "A", "da"⟩]) =
    { status := 408, success := none, error := some "Request timed out",
      data := none } ∧
    (searchControllerV0 (fun _ => false) (fun _ => JobOutcome.timedOut) "q" "t"
      (some 2) true (fun _ => [⟨"https://c1.example", "A", "da"⟩])).success ≠
      some true := by
  refine ⟨by decide, by decide⟩

/-- C3 (amended): the v1 controller returns at most the requested limit of
Documents on every terminal path; the v0 helper does so on every path except
the SERP-only fast path, which returns the raw (unsliced) provider list and
can exceed the limit (see the counterexample). -/
theorem c3_limit_bound :
    (∀ (blocked : String → Bool) (outcomes : Nat → JobOutcome) (limit : Nat)
        (ps : Nat → List SearchResult) (formats : Option (List String)),
      ((searchControllerV1 blocked outcomes limit ps formats).response.data).length ≤
        limit) ∧
    (∀ (blocked : String → Bool) (outcomes : Nat → JobOutcome)
        (query teamId : String) (limitOpt : Option Nat)
        (ps : Nat → List SearchResult) (r : V0HelperResp) (d : V0Data),
      (searchHelperV0 blocked outcomes query teamId limitOpt true ps).result =
        Except.ok r →
      r.data = some d → d.size ≤ v0NumResults teamId limitOpt) := by
  constructor
  · intro blocked outcomes limit ps formats
    have hsl := slicedResultsV1_length_le limit ps
    simp only [searchControllerV1]
    split
    · simp
    · split
      · simpa using hsl
      · split
        · simpa [docsV1_length] using hsl
        · calc ((docsV1 blocked outcomes (slicedResultsV1 limit ps)).filter
                keepDocV1).length
              ≤ (docsV1 blocked outcomes (slicedResultsV1 limit ps)).length :=
                List.length_filter_le _ _
            _ = (slicedResultsV1 limit ps).length := docsV1_length _ _ _
            _ ≤ limit := hsl
  · intro blocked outcomes query teamId limitOpt ps r d h h2
    have hres := v0Res_length_le blocked teamId limitOpt ps
    simp only [searchHelperV0] at h
    split at h
    · cases h
      simp at h2
    · split at h
      · simp_all
      · split at h
        · cases h
          simp at h2
        · split at h
          · cases h
          · split at h
            · cases h
              simp at h2
            · split at h
              · cases h
                simp only [Option.some.injEq] at h2
                subst h2
                simpa [V0Data.size, v0DocsLegacy_length] using hres
              · cases h
                simp only [Option.some.injEq] at h2
                subst h2
                calc ((v0DocsLegacy outcomes (v0Res blocked teamId limitOpt ps)).filter
                      keepDocV0).length
                    ≤ (v0DocsLegacy outcomes (v0Res blocked teamId limitOpt ps)).length :=
                      List.length_filter_le _ _
                  _ = (v0Res blocked teamId limitOpt ps).length :=
                      v0DocsLegacy_length _ _
                  _ ≤ v0NumResults teamId limitOpt := hres

/-- C3 witness: a concrete non-fast-path v0 run returns one document within
the effective limit of 1. -/
theorem c3_witness :
    (V0Data.docs [{ content := "hello", url := none }]).size ≤
      v0NumResults "t" (some 1) :=
  c3_limit_bound.2 (fun _ => false)
    (fun _ => JobOutcome.completed { markdown := some "hello" }) "q" "t" (some 1)
    (fun _ => [⟨"https://w3a.example", "A", "da"⟩, ⟨"https://w3b.example", "B", "db"⟩])
    { success := true, data := some (.docs [{ content := "hello", url := none }]),
      returnCode := 200 }
    (.docs [{ content := "hello", url := none }]) (by decide) rfl

/-- C3 counterexample: on the v0 SERP-only fast path with requested limit 4
the helper returns all 6 provider results unsliced — more than the limit,
contradicting the claim that every terminal path returns at most L. -/
theorem c3_counterexample :
    (match (searchHelperV0 (fun _ => false) (fun _ => JobOutcome.timedOut) "q" "t"
        (some 4) false (fun _ =>
          [⟨"https://c3a.example", "t0", "d0"⟩, ⟨"https://c3b.example", "t1", "d1"⟩,
           ⟨"https://c3c.example", "t2", "d2"⟩, ⟨"https://c3d.example", "t3", "d3"⟩,
           ⟨"https://c3e.example", "t4", "d4"⟩, ⟨"https://c3f.example", "t5", "d5"⟩])).result
      with
      | Except.ok r => r.data.map V0Data.size
      | Except.error _ => none) = some 6 ∧
    ¬ (6 : Nat) ≤ 4 := by
  refine ⟨by decide, by decide⟩

/-- C8: within one `googleCustomSearch` call — an error with HTTP status
400/403/429 retries the same call with the next credential (shown by the
success-after-one-retry case), any other error class aborts immediately with
a `ProviderError` and no further rotation, and when every credential fails
with a retryable class the call ends with the exhaustion error carrying the
last error status and message. -/
theorem c8_retry_classes (behavior : Nat → CallOutcome) (env : GoogleEnv)
    (s : Nat) (stf : Nat → Option Nat) (mf : Nat → String)
    (hc : truthy env.googleCseId = true)
    (hs : s < (getAllApiKeys env).length) :
    (∀ st m, behavior s = .err st m → retryableStatus st = false →
      (googleCustomSearch behavior env s).result =
        .providerError ("Error calling Google Custom Search: " ++ m) ∧
      (googleCustomSearch behavior env s).tried = [s]) ∧
    ((∀ j, j < (getAllApiKeys env).length →
        behavior ((s + j) % (getAllApiKeys env).length) = .err (stf j) (mf j) ∧
          retryableStatus (stf j) = true) →
      (googleCustomSearch behavior env s).result =
        .exhausted (stf ((getAllApiKeys env).length - 1))
          (if mf ((getAllApiKeys env).length - 1) == "" then "Unknown error"
           else mf ((getAllApiKeys env).length - 1)) ∧
      (googleCustomSearch behavior env s).tried.length =
        (getAllApiKeys env).length) ∧
    (∀ st m rs, 2 ≤ (getAllApiKeys env).length →
      behavior s = .err st m → retryableStatus st = true →
      behavior ((s + 1) % (getAllApiKeys env).length) = .ok rs →
      (googleCustomSearch behavior env s).result = .ok rs ∧
      (googleCustomSearch behavior env s).tried =
        [s, (s + 1) % (getAllApiKeys env).length]) := by
  have hlen : (getAllApiKeys env).length ≠ 0 := by omega
  have hgcs : googleCustomSearch behavior env s =
      gcsLoop behavior (getAllApiKeys env).length (getAllApiKeys env).length s
        none [] := by
    simp only [googleCustomSearch, hc, Bool.not_true, Bool.false_eq_true, if_false]
    rw [if_neg hlen]
  refine ⟨?_, ?_, ?_⟩
  · intro st m hb hr
    obtain ⟨f, hf⟩ : ∃ f, (getAllApiKeys env).length = f + 1 :=
      ⟨(getAllApiKeys env).length - 1, by omega⟩
    rw [hgcs, hf]
    have hrun : gcsLoop behavior (f + 1) (f + 1) s none [] =
        { result := .providerError ("Error calling Google Custom Search: " ++ m),
          tried := [s] } := by
      conv_lhs => rw [gcsLoop]
      simp [hb, hr]
    rw [hrun]
    exact ⟨rfl, rfl⟩
  · intro hall
    obtain ⟨st, m, hbm, hres, htr⟩ := gcsLoop_exhaust behavior
      (getAllApiKeys env).length (getAllApiKeys env).length s none []
      (by omega) hs
      (fun j hj => ⟨stf j, mf j, (hall j hj).1, (hall j hj).2⟩)
    have hlast := (hall ((getAllApiKeys env).length - 1) (by omega)).1
    have heq : CallOutcome.err st m =
        CallOutcome.err (stf ((getAllApiKeys env).length - 1))
          (mf ((getAllApiKeys env).length - 1)) := hbm.symm.trans hlast
    injection heq with h1 h2
    subst h1
    subst h2
    rw [hgcs]
    refine ⟨hres, ?_⟩
    rw [htr]
    simp [selSeq_length]
  · intro st m rs h2K hb hr hb2
    obtain ⟨f, hf⟩ : ∃ f, (getAllApiKeys env).length = f + 2 :=
      ⟨(getAllApiKeys env).length - 2, by omega⟩
    rw [hf] at hb2
    rw [hgcs, hf]
    have hrun : gcsLoop behavior (f + 2) (f + 2) s none [] =
        { result := .ok rs, tried := [s, (s + 1) % (f + 2)] } := by
      conv_lhs => rw [gcsLoop]
      simp only [hb, hr, if_true]
      rw [gcsLoop]
      simp [hb2]
    rw [hrun]
    exact ⟨rfl, rfl⟩

/-- C8 witness: a two-credential pool — a 500-class error aborts at once
with a `ProviderError`; two successive 429 errors exhaust the pool and
surface the last error status and message; a 403 followed by a success
retries once with the next credential and returns its results. -/
theorem c8_witness :
    ((googleCustomSearch (fun _ => .err (some 500) "boom")
      { googleApiKey := some "k1", googleApiKey2 := some "k2",
        googleCseId := some "cse" } 0).result =
      .providerError "Error calling Google Custom Search: boom") ∧
    ((googleCustomSearch
      (fun i => .err (some 429) (if i == 0 then "early" else "late"))
      { googleApiKey := some "k1", googleApiKey2 := some "k2",
        googleCseId := some "cse" } 0).result =
      .exhausted (some 429) "late") ∧
    ((googleCustomSearch (fun i => if i == 0 then .err (some 403) "r" else .ok [])
      { googleApiKey := some "k1", googleApiKey2 := some "k2",
        googleCseId := some "cse" } 0).result = .ok [] ∧
     (googleCustomSearch (fun i => if i == 0 then .err (some 403) "r" else .ok [])
      { googleApiKey := some "k1", googleApiKey2 := some "k2",
        googleCseId := some "cse" } 0).tried = [0, 1]) := by
  refine ⟨?_, ?_, ?_⟩
  · exact ((c8_retry_classes (fun _ => .err (some 500) "boom")
      { googleApiKey := some "k1", googleApiKey2 := some "k2",
        googleCseId := some "cse" } 0 (fun _ => none) (fun _ => "") rfl
      (by decide)).1 (some 500) "boom" rfl rfl).1
  · have h := (c8_retry_classes
      (fun i => .err (some 429) (if i == 0 then "early" else "late"))
      { googleApiKey := some "k1", googleApiKey2 := some "k2",
        googleCseId := some "cse" } 0 (fun _ => some 429)
      (fun j => if j == 0 then "early" else "late") rfl
      (by decide)).2.1 (by decide)
    simpa using h.1
  · have h := (c8_retry_classes
      (fun i => if i == 0 then .err (some 403) "r" else .ok [])
      { googleApiKey := some "k1", googleApiKey2 := some "k2",
        googleCseId := some "cse" } 0 (fun _ => none) (fun _ => "") rfl
      (by decide)).2.2 (some 403) "r" [] (by decide) rfl rfl (by decide)
    simpa using h
